import Mathlib

/-!
# Verification of the ads-dashboard impact-estimation and aggregation pipeline

A shallow embedding, in Lean 4, of the pure core of the `ads_dashboard`
repository:

* `execution/impact_models.py` — the impact-model formulas;
* `execution/calculate_total_impact.py` — the total-benefit aggregator;
* `execution/analyze_facebook_insights.py` — the placement-efficiency and
  budget-pacing analyzers;
* `execution/create_facebook_insights.py` — the final sort-and-cap step of
  `generate_recommendations`.

Modelling conventions:

* Python numbers (ints and floats) are modelled as exact rationals `ℚ`;
  float literals such as `0.8` become the rationals they denote (`4/5`).
* A Python dict record is modelled as a structure whose fields are `Option`s:
  `none` models an absent key, and `d.get(k, v)` becomes `field.getD v`.
* A function that can raise (here: a `KeyError` from direct `rec['spend']`
  indexing) returns an `Option`; `none` models the exception.
* Human-readable `formula` / `assumptions` strings of the result dicts are
  not modelled; all numeric and categorical fields are.
-/

namespace AdsDashboard

/-- Python `round` rounds half to even (banker's rounding); this is the
exact-rational model of rounding to an integer. -/
def roundHalfEven (q : ℚ) : ℤ :=
  let f : ℤ := ⌊q⌋
  let r : ℚ := q - f
  if r < 1/2 then f
  else if 1/2 < r then f + 1
  else if f % 2 = 0 then f else f + 1

/-- Model of Python `round(x, 2)`. -/
def round2 (q : ℚ) : ℚ := (roundHalfEven (q * 100) : ℚ) / 100

/-- Model of Python `round(x, 1)`. -/
def round1 (q : ℚ) : ℚ := (roundHalfEven (q * 10) : ℚ) / 10

/-- Model of Python `int(x)`: truncation toward zero. -/
def pyInt (q : ℚ) : ℤ := if 0 ≤ q then ⌊q⌋ else -⌊-q⌋

/-! ## `execution/impact_models.py` -/

/-- The result dict of the impact-model formulas.  Keys that some formulas
omit are `Option`s (`none` = key absent from the returned dict); keys present
in every return are plain fields.  The `formula` and `assumptions` strings
are not modelled. -/
structure ImpactResult where
  monthly_savings : ℚ
  additional_conversions_monthly : ℚ
  additional_revenue_monthly : Option ℚ := none
  additional_spend_monthly : Option ℚ := none
  net_benefit_monthly : Option ℚ := none
  new_cpa : Option ℚ := none
  conversions_lost_monthly : Option ℚ := none
  ctr_improvement_pct : Option ℤ := none
  conv_rate_improvement_pct : Option ℤ := none
  confidence : String
  confidence_pct : ℕ
  deriving Repr, DecidableEq

/-- Model of `calculate_exclusion_impact(spend, conversions=0)`:
`monthly_savings = spend * 4`, no projected conversions or revenue,
confidence `'high'` / 90. -/
def calculate_exclusion_impact (spend : ℚ) (_conversions : ℚ := 0) : ImpactResult :=
  let monthly_savings := spend * 4
  { monthly_savings := monthly_savings
    additional_conversions_monthly := 0
    additional_revenue_monthly := some 0
    confidence := "high"
    confidence_pct := 90 }

/-- Model of `calculate_scaling_impact(current_spend, current_conversions,
scale_factor=1.25, customer_value=None)`: zero-conversion guard, otherwise
diminishing-returns scaling (20% volume growth, 10% CPA degradation) with
`customer_value` defaulting to `3 × CPA`. -/
def calculate_scaling_impact (current_spend current_conversions : ℚ)
    (_scale_factor : ℚ := 5/4) (customer_value : Option ℚ := none) : ImpactResult :=
  if current_conversions = 0 then
    { monthly_savings := 0
      additional_conversions_monthly := 0
      additional_revenue_monthly := some 0
      confidence := "low"
      confidence_pct := 30 }
  else
    let current_cpa := current_spend / current_conversions
    let customer_value := customer_value.getD (current_cpa * 3)
    let volume_increase_rate : ℚ := 20/100
    let cpa_degradation : ℚ := 110/100
    let new_cpa := current_cpa * cpa_degradation
    let additional_conversions := current_conversions * volume_increase_rate
    let additional_revenue := additional_conversions * customer_value
    let additional_spend := additional_conversions * new_cpa
    let net_benefit := additional_revenue - additional_spend
    { monthly_savings := 0
      additional_conversions_monthly := additional_conversions * 4
      additional_spend_monthly := some (additional_spend * 4)
      additional_revenue_monthly := some (additional_revenue * 4)
      net_benefit_monthly := some (net_benefit * 4)
      new_cpa := some new_cpa
      confidence := "moderate"
      confidence_pct := 70 }

/-- Model of `calculate_creative_refresh_impact(spend, frequency, current_ctr,
current_conversions, customer_value=None)`: CTR / conversion-rate uplift
tiered by frequency (`>5`, `>3`, else); `customer_value` defaults to
`3 × CPA` when conversions are positive, else to 100. -/
def calculate_creative_refresh_impact (spend frequency _current_ctr current_conversions : ℚ)
    (customer_value : Option ℚ := none) : ImpactResult :=
  let ctr_improvement : ℚ := if frequency > 5 then 40/100 else if frequency > 3 then 25/100 else 15/100
  let conv_rate_improvement : ℚ := if frequency > 5 then 10/100 else if frequency > 3 then 10/100 else 5/100
  let confidence_pct : ℕ := if frequency > 5 then 75 else if frequency > 3 then 70 else 60
  let customer_value : ℚ :=
    match customer_value with
    | none => if current_conversions > 0 then spend / current_conversions * 3 else 100
    | some v => v
  let additional_conversions := current_conversions * conv_rate_improvement
  let additional_revenue := additional_conversions * customer_value
  let net_benefit := additional_revenue
  { monthly_savings := 0
    additional_conversions_monthly := additional_conversions * 4
    additional_revenue_monthly := some (additional_revenue * 4)
    net_benefit_monthly := some (net_benefit * 4)
    ctr_improvement_pct := some (pyInt (ctr_improvement * 100))
    conv_rate_improvement_pct := some (pyInt (conv_rate_improvement * 100))
    confidence := "moderate"
    confidence_pct := confidence_pct }

/-- Model of `calculate_schedule_impact(wasted_hours_spend, avg_conv_rate=0.02,
peak_multiplier=2.5, avg_cpa=50, customer_value=None)`: redirect wasted
spend to peak hours; `customer_value` defaults to `3 × avg_cpa`. -/
def calculate_schedule_impact (wasted_hours_spend : ℚ) (_avg_conv_rate : ℚ := 2/100)
    (peak_multiplier : ℚ := 5/2) (avg_cpa : ℚ := 50)
    (customer_value : Option ℚ := none) : ImpactResult :=
  let customer_value := customer_value.getD (avg_cpa * 3)
  let redirected_conversions := wasted_hours_spend / avg_cpa * peak_multiplier
  let additional_revenue := redirected_conversions * customer_value
  let monthly_savings : ℚ := 0
  { monthly_savings := monthly_savings
    additional_conversions_monthly := redirected_conversions * 4
    additional_revenue_monthly := some (additional_revenue * 4)
    net_benefit_monthly := some (additional_revenue * 4)
    confidence := "moderate"
    confidence_pct := 70 }

/-- Model of `calculate_bid_adjustment_impact(current_bid, suggested_bid,
keyword_spend, keyword_conversions, customer_value=None)`: invalid-bid
guard; for increases, 80%-efficient volume scaling; for decreases, 1:1
spend savings and a flat 20% conversion loss. -/
def calculate_bid_adjustment_impact (current_bid suggested_bid keyword_spend keyword_conversions : ℚ)
    (customer_value : Option ℚ := none) : ImpactResult :=
  if current_bid = 0 then
    { monthly_savings := 0
      additional_conversions_monthly := 0
      additional_revenue_monthly := some 0
      confidence := "low"
      confidence_pct := 30 }
  else
    let bid_change_pct := (suggested_bid - current_bid) / current_bid
    let customer_value : ℚ :=
      match customer_value with
      | none => if keyword_conversions > 0 then keyword_spend / keyword_conversions * 3 else 100
      | some v => v
    if bid_change_pct > 0 then
      let volume_increase := bid_change_pct * (80/100)
      let additional_conversions := if keyword_conversions > 0 then keyword_conversions * volume_increase else 0
      let additional_revenue := additional_conversions * customer_value
      let additional_spend := keyword_spend * bid_change_pct
      let net_benefit := additional_revenue - additional_spend
      { monthly_savings := 0
        additional_conversions_monthly := additional_conversions * 4
        additional_spend_monthly := some (additional_spend * 4)
        additional_revenue_monthly := some (additional_revenue * 4)
        net_benefit_monthly := some (net_benefit * 4)
        confidence := "moderate"
        confidence_pct := 70 }
    else
      let savings := |keyword_spend * bid_change_pct|
      let conversions_lost := if keyword_conversions > 0 then keyword_conversions * (20/100) else 0
      { monthly_savings := savings * 4
        conversions_lost_monthly := some (conversions_lost * 4)
        additional_conversions_monthly := -conversions_lost
        net_benefit_monthly := some (savings * 4)
        confidence := "moderate"
        confidence_pct := 70 }

/-- Model of `calculate_geo_adjustment_impact(current_spend, current_conversions,
geo_performance_multiplier, customer_value=None)`: delegates to exclusion
(`< 0.5`) or scaling (`> 1.5`), otherwise a conservative in-place bid
adjustment with `customer_value` defaulting to `3 × CPA`. -/
def calculate_geo_adjustment_impact (current_spend current_conversions geo_performance_multiplier : ℚ)
    (customer_value : Option ℚ := none) : ImpactResult :=
  if geo_performance_multiplier < 1/2 then
    calculate_exclusion_impact current_spend current_conversions
  else if geo_performance_multiplier > 3/2 then
    calculate_scaling_impact current_spend current_conversions (120/100) customer_value
  else
    let customer_value : ℚ :=
      match customer_value with
      | none => if current_conversions > 0 then current_spend / current_conversions * 3 else 100
      | some v => v
    let bid_adjustment := (geo_performance_multiplier - 1) * (50/100)
    let spend_change := current_spend * bid_adjustment
    let conversions_change := current_conversions * bid_adjustment * (80/100)
    let revenue_change := conversions_change * customer_value
    let net_benefit := revenue_change - spend_change
    { monthly_savings := if spend_change < 0 then -spend_change * 4 else 0
      additional_conversions_monthly := conversions_change * 4
      additional_spend_monthly := some (if spend_change > 0 then spend_change * 4 else 0)
      additional_revenue_monthly := some (revenue_change * 4)
      net_benefit_monthly := some (net_benefit * 4)
      confidence := "moderate"
      confidence_pct := 70 }

/-! ## `execution/calculate_total_impact.py` -/

/-- The `impact_data` dict as read by `aggregate_total_benefits`: every key
is accessed with `.get(key, 0)`, so every field is optional. -/
structure ImpactData where
  monthly_savings : Option ℚ := none
  additional_conversions_monthly : Option ℚ := none
  additional_revenue_monthly : Option ℚ := none
  additional_spend_monthly : Option ℚ := none
  net_benefit_monthly : Option ℚ := none
  deriving Repr, DecidableEq

/-- The empty dict `{}` used as the default for `rec.get('impact_data', {})`. -/
def ImpactData.empty : ImpactData := {}

/-- The `automation` dict as read by the aggregator
(`automation.get('is_automatable', False)`). -/
structure AutomationData where
  is_automatable : Option Bool := none
  deriving Repr, DecidableEq

/-- A recommendation dict as read by `aggregate_total_benefits`: each key is
accessed defensively, so each is optional. -/
structure Recommendation where
  impact_data : Option ImpactData := none
  rec_type : Option String := none
  priority : Option String := none
  automation : Option AutomationData := none
  deriving Repr, DecidableEq

/-- One entry of `totals['breakdown_by_type']`. -/
structure TypeBreakdown where
  count : ℕ
  monthly_savings : ℚ
  additional_conversions : ℚ
  additional_revenue : ℚ
  net_benefit : ℚ
  deriving Repr, DecidableEq

/-- The `totals` dict built by `aggregate_total_benefits`.
`breakdown_by_type` is an insertion-ordered association list, like a Python
dict; `breakdown_by_priority` has the three fixed keys. -/
structure Totals where
  total_monthly_savings : ℚ
  total_additional_conversions : ℚ
  total_additional_revenue : ℚ
  total_additional_spend : ℚ
  total_net_benefit : ℚ
  total_recommendations : ℕ
  automatable_count : ℕ
  manual_count : ℕ
  confidence_level : String
  confidence_factor : ℚ
  breakdown_by_type : List (String × TypeBreakdown)
  breakdown_by_priority_high : ℕ
  breakdown_by_priority_medium : ℕ
  breakdown_by_priority_low : ℕ
  deriving Repr, DecidableEq

/-- Model of `confidence_factors.get(confidence_level, 0.7)` with
`{'conservative': 0.5, 'moderate': 0.7, 'optimistic': 1.0}`. -/
def confidenceFactor (confidence_level : String) : ℚ :=
  if confidence_level = "conservative" then 50/100
  else if confidence_level = "moderate" then 70/100
  else if confidence_level = "optimistic" then 1
  else 70/100

/-- The `breakdown_by_type` update: insert a zero entry when the type key is
new, then add this recommendation's contributions (Python dicts preserve
insertion order). -/
def upsertTypeBreakdown (m : List (String × TypeBreakdown)) (k : String)
    (ms conv rev nb : ℚ) : List (String × TypeBreakdown) :=
  match m with
  | [] => [(k, { count := 1, monthly_savings := ms, additional_conversions := conv,
                 additional_revenue := rev, net_benefit := nb })]
  | (k', b) :: rest =>
    if k' = k then
      (k', { count := b.count + 1, monthly_savings := b.monthly_savings + ms,
             additional_conversions := b.additional_conversions + conv,
             additional_revenue := b.additional_revenue + rev,
             net_benefit := b.net_benefit + nb }) :: rest
    else (k', b) :: upsertTypeBreakdown rest k ms conv rev nb

/-- The body of the `for rec in recommendations` loop of
`aggregate_total_benefits`, updating the running totals for one
recommendation. -/
def aggStep (factor : ℚ) (t : Totals) (rec : Recommendation) : Totals :=
  let impact_data := rec.impact_data.getD ImpactData.empty
  let rec_type := rec.rec_type.getD "unknown"
  let priority := rec.priority.getD "medium"
  let automation := rec.automation.getD {}
  let monthly_savings := impact_data.monthly_savings.getD 0 * factor
  let additional_conversions := impact_data.additional_conversions_monthly.getD 0 * factor
  let additional_revenue := impact_data.additional_revenue_monthly.getD 0 * factor
  let additional_spend := impact_data.additional_spend_monthly.getD 0 * factor
  let net_benefit0 := impact_data.net_benefit_monthly.getD 0 * factor
  -- "If net_benefit not provided, calculate it"
  let net_benefit :=
    if net_benefit0 = 0 ∧ (monthly_savings > 0 ∨ additional_revenue > 0) then
      monthly_savings + additional_revenue - additional_spend
    else net_benefit0
  { t with
    total_monthly_savings := t.total_monthly_savings + monthly_savings
    total_additional_conversions := t.total_additional_conversions + additional_conversions
    total_additional_revenue := t.total_additional_revenue + additional_revenue
    total_additional_spend := t.total_additional_spend + additional_spend
    total_net_benefit := t.total_net_benefit + net_benefit
    automatable_count :=
      if automation.is_automatable.getD false then t.automatable_count + 1 else t.automatable_count
    manual_count :=
      if automation.is_automatable.getD false then t.manual_count else t.manual_count + 1
    breakdown_by_type :=
      upsertTypeBreakdown t.breakdown_by_type rec_type monthly_savings
        additional_conversions additional_revenue net_benefit
    breakdown_by_priority_high :=
      if priority = "high" then t.breakdown_by_priority_high + 1 else t.breakdown_by_priority_high
    breakdown_by_priority_medium :=
      if priority = "medium" then t.breakdown_by_priority_medium + 1 else t.breakdown_by_priority_medium
    breakdown_by_priority_low :=
      if priority = "low" then t.breakdown_by_priority_low + 1 else t.breakdown_by_priority_low }

/-- Model of `aggregate_total_benefits(recommendations, confidence_level='moderate')`. -/
def aggregate_total_benefits (recommendations : List Recommendation)
    (confidence_level : String := "moderate") : Totals :=
  let factor := confidenceFactor confidence_level
  let init : Totals :=
    { total_monthly_savings := 0
      total_additional_conversions := 0
      total_additional_revenue := 0
      total_additional_spend := 0
      total_net_benefit := 0
      total_recommendations := recommendations.length
      automatable_count := 0
      manual_count := 0
      confidence_level := confidence_level
      confidence_factor := factor
      breakdown_by_type := []
      breakdown_by_priority_high := 0
      breakdown_by_priority_medium := 0
      breakdown_by_priority_low := 0 }
  recommendations.foldl (aggStep factor) init

/-! ## List utilities modelling Python's `sort` / `sorted` / `min` / `max`

Python's `list.sort` and `sorted` are stable; `sorted(..., reverse=True)`
keeps the original relative order of equal keys as well.  `min`/`max` with a
key return the first extremal element. -/

/-- Stable insertion for an ascending sort: the new element (earlier in the
input) goes before existing elements with an equal key. -/
def insertAscBy (key : α → ℕ) (x : α) : List α → List α
  | [] => [x]
  | y :: ys => if key x ≤ key y then x :: y :: ys else y :: insertAscBy key x ys

/-- Stable ascending sort by a `ℕ` key, modelling `list.sort(key=...)`. -/
def sortAscBy (key : α → ℕ) : List α → List α
  | [] => []
  | x :: xs => insertAscBy key x (sortAscBy key xs)

/-- Stable insertion for a descending sort: the new element (earlier in the
input) goes before existing elements with an equal key. -/
def insertDescBy (key : α → ℚ) (x : α) : List α → List α
  | [] => [x]
  | y :: ys => if key y ≤ key x then x :: y :: ys else y :: insertDescBy key x ys

/-- Stable descending sort by a `ℚ` key, modelling
`sorted(..., key=..., reverse=True)`. -/
def sortDescBy (key : α → ℚ) : List α → List α
  | [] => []
  | x :: xs => insertDescBy key x (sortDescBy key xs)

/-- Python `min(l, key=key)` for non-empty `l`: the first element with the
minimal key (`none` on the empty list). -/
def minByKey (key : α → ℚ) : List α → Option α
  | [] => none
  | x :: xs => some (xs.foldl (fun m y => if key y < key m then y else m) x)

/-- Python `max(l, key=key)` for non-empty `l`: the first element with the
maximal key (`none` on the empty list). -/
def maxByKey (key : α → ℚ) : List α → Option α
  | [] => none
  | x :: xs => some (xs.foldl (fun m y => if key m < key y then y else m) x)

/-! ## `execution/analyze_facebook_insights.py` -/

/-- An input placement record for `analyze_placement_efficiency`.  Every
field is optional: the Python code reads them with `.get(key, default)` —
except for `pl['spend']` in the sort key at line 219, which raises
`KeyError` when the key is absent. -/
structure PlacementRec where
  platform : Option String := none
  impressions : Option ℚ := none
  clicks : Option ℚ := none
  spend : Option ℚ := none
  conversions : Option ℚ := none
  placement_name : Option String := none
  position : Option String := none
  ctr : Option ℚ := none
  cpm : Option ℚ := none
  deriving Repr, DecidableEq

/-- Running per-platform sums (the `defaultdict` entry). -/
structure PlatformAgg where
  impressions : ℚ
  clicks : ℚ
  spend : ℚ
  conversions : ℚ
  deriving Repr, DecidableEq

/-- Group placements by `pl.get('platform', 'unknown')`, summing the four
metrics; insertion order of first occurrence is preserved (Python
`defaultdict` over an insertion-ordered dict). -/
def groupPlatforms (placements : List PlacementRec) : List (String × PlatformAgg) :=
  placements.foldl (fun m pl =>
    let p := pl.platform.getD "unknown"
    let upd := fun (a : PlatformAgg) =>
      { impressions := a.impressions + pl.impressions.getD 0
        clicks := a.clicks + pl.clicks.getD 0
        spend := a.spend + pl.spend.getD 0
        conversions := a.conversions + pl.conversions.getD 0 }
    let rec go : List (String × PlatformAgg) → List (String × PlatformAgg)
      | [] => [(p, upd { impressions := 0, clicks := 0, spend := 0, conversions := 0 })]
      | (k, a) :: rest => if k = p then (k, upd a) :: rest else (k, a) :: go rest
    go m) []

/-- One entry of the `by_platform` result list. -/
structure PlatformRow where
  platform : String
  spend : ℚ
  conversions : ℚ
  cpa : ℚ
  ctr : ℚ
  cpm : ℚ
  clicks : ℚ
  deriving Repr, DecidableEq

/-- One entry of the `placements` result list (individual placement
details). -/
structure PlacementRow where
  placement_name : String
  platform : String
  position : String
  spend : ℚ
  clicks : ℚ
  conversions : ℚ
  cpa : ℚ
  ctr : ℚ
  cpm : ℚ
  efficiency : String
  deriving Repr, DecidableEq

/-- The result of `analyze_placement_efficiency`: the early-return dict for
an empty input (`{'placements': [], 'best_placement': None,
'worst_placement': None}`) or the full dict. -/
inductive PlacementResult where
  | empty : PlacementResult
  | full (by_platform : List PlatformRow) (placements : List PlacementRow)
      (best_platform worst_platform : Option PlatformRow) : PlacementResult
  deriving Repr, DecidableEq

/-- Model of `analyze_placement_efficiency(placements)`.  Returns `none` exactly when
the Python function raises: the sort key `lambda x: x['spend']` (line 219)
indexes `'spend'` directly, so any record lacking `spend` raises `KeyError`
(all other field reads are defensive `.get`s). -/
def analyze_placement_efficiency (placements : List PlacementRec) : Option PlacementResult :=
  if placements = [] then some .empty
  else
    let platform_results :=
      (groupPlatforms placements).map (fun pd =>
        let spend := pd.2.spend
        let conversions := pd.2.conversions
        let clicks := pd.2.clicks
        let impressions := pd.2.impressions
        { platform := pd.1
          spend := round2 spend
          conversions := conversions
          cpa := if conversions > 0 then round2 (spend / conversions) else 0
          ctr := if impressions > 0 then round2 (clicks / impressions * 100) else 0
          cpm := if impressions > 0 then round2 (spend / impressions * 1000) else 0
          clicks := clicks : PlatformRow })
    let platform_results := sortDescBy (fun r => r.spend) platform_results
    let with_conversions := platform_results.filter (fun p => p.conversions > 0)
    let best := if with_conversions ≠ [] then minByKey (fun p => p.cpa) with_conversions else none
    let worst := if with_conversions.length > 1 then maxByKey (fun p => p.cpa) with_conversions else none
    -- `sorted(placements, key=lambda x: x['spend'], reverse=True)`:
    -- raises KeyError unless every record has the `spend` key.
    if placements.all (fun pl => pl.spend.isSome) then
      let placement_details :=
        (sortDescBy (fun pl => pl.spend.getD 0) placements).map (fun pl =>
          let spend := pl.spend.getD 0
          let conversions := pl.conversions.getD 0
          let clicks := pl.clicks.getD 0
          { placement_name := pl.placement_name.getD ""
            platform := pl.platform.getD ""
            position := pl.position.getD ""
            spend := round2 spend
            clicks := clicks
            conversions := conversions
            cpa := if conversions > 0 then round2 (spend / conversions) else 0
            ctr := pl.ctr.getD 0
            cpm := pl.cpm.getD 0
            efficiency :=
              if conversions > 0 ∧ spend / conversions < 50 then "good"
              else if spend > 10 ∧ conversions = 0 then "poor"
              else "average" : PlacementRow })
      some (.full platform_results (placement_details.take 15) best worst)
    else none

/-- An input campaign record for `analyze_budget_pacing` (only the fields
the function reads). -/
structure CampaignRec where
  campaign_name : Option String := none
  daily_budget : Option ℚ := none
  lifetime_budget : Option ℚ := none
  spend : Option ℚ := none
  deriving Repr, DecidableEq

/-- One entry of `campaign_pacing`: the daily-budget and lifetime-budget
variants carry different keys (`avg_daily_spend` vs `total_spend`). -/
inductive PacingRow where
  | daily (campaign_name : String) (budget avg_daily_spend utilization_pct : ℚ) (status : String)
  | lifetime (campaign_name : String) (budget total_spend utilization_pct : ℚ) (status : String)
  deriving Repr, DecidableEq

/-- The result of `analyze_budget_pacing`: the early-return `{}` for an
empty input, or the full dict. -/
inductive PacingResult where
  | empty : PacingResult
  | full (total_spend daily_average projected_monthly days_in_range : ℚ)
      (campaign_pacing : List PacingRow) : PacingResult
  deriving Repr, DecidableEq

/-- Model of `analyze_budget_pacing(campaigns, days_in_range)`.  Returns `none`
exactly when the Python function raises: `sum(c['spend'] for c in
campaigns)` (line 256) indexes `'spend'` directly, so any record lacking
`spend` raises `KeyError` (the per-campaign reads below it are defensive
`.get`s). -/
def analyze_budget_pacing (campaigns : List CampaignRec) (days_in_range : ℚ) : Option PacingResult :=
  if campaigns = [] then some .empty
  else if campaigns.all (fun c => c.spend.isSome) then
    let total_spend := (campaigns.map (fun c => c.spend.getD 0)).sum
    let daily_avg := if days_in_range > 0 then total_spend / days_in_range else 0
    let projected_monthly := daily_avg * 30
    let pacing_details := campaigns.filterMap (fun camp =>
      let daily_budget := camp.daily_budget.getD 0
      let lifetime_budget := camp.lifetime_budget.getD 0
      let camp_spend := camp.spend.getD 0
      let camp_daily_avg := if days_in_range > 0 then camp_spend / days_in_range else 0
      if daily_budget > 0 then
        let utilization := camp_daily_avg / daily_budget * 100
        some (.daily (camp.campaign_name.getD "") daily_budget (round2 camp_daily_avg)
          (round1 utilization)
          (if utilization > 110 then "overspending"
           else if utilization < 70 then "underspending" else "on_track"))
      else if lifetime_budget > 0 then
        let utilization := camp_spend / lifetime_budget * 100
        some (.lifetime (camp.campaign_name.getD "") lifetime_budget (round2 camp_spend)
          (round1 utilization)
          (if utilization > 90 then "overspending"
           else if utilization < 30 then "underspending" else "on_track"))
      else none)
    some (.full (round2 total_spend) (round2 daily_avg) (round2 projected_monthly)
      days_in_range pacing_details)
  else none

/-! ## `execution/create_facebook_insights.py`, lines 549–553

The final step of `generate_recommendations`: the recommendations collected
from all analyzers are sorted by priority with
`priority_order = {'high': 0, 'medium': 1, 'low': 2}` and
`key=lambda x: priority_order.get(x.get('priority', 'low'), 2)`
(Python's sort is stable), then capped with `[:20]`. -/

/-- A generated recommendation as read by the final sort: only its
`priority` field is consulted (the other fields ride along unchanged and are
irrelevant to the ordering, so they are modelled by an opaque payload
field). -/
structure GenRec where
  priority : Option String := none
  payload : ℕ := 0
  deriving Repr, DecidableEq

/-- Model of `priority_order.get(x.get('priority', 'low'), 2)`. -/
def priorityKey (x : GenRec) : ℕ :=
  let p := x.priority.getD "low"
  if p = "high" then 0 else if p = "medium" then 1 else if p = "low" then 2 else 2

/-- The tail of `generate_recommendations`:
`recommendations.sort(key=...)` followed by `return recommendations[:20]`,
applied to the list the generation phase built. -/
def generate_recommendations_finalize (recommendations : List GenRec) : List GenRec :=
  (sortAscBy priorityKey recommendations).take 20

/-! ## Theorems -/

/-- C6: every exclusion-impact call returns `monthly_savings = spend × 4`
exactly, `confidence_pct = 90`, and zero projected conversions and revenue;
in particular spend = 20, conversions = 0 yields `monthly_savings = 80` with
`confidence_pct = 90`. -/
theorem exclusion_impact_formula (spend conversions : ℚ) :
    (calculate_exclusion_impact spend conversions).monthly_savings = spend * 4 ∧
    (calculate_exclusion_impact spend conversions).confidence_pct = 90 ∧
    (calculate_exclusion_impact spend conversions).additional_conversions_monthly = 0 ∧
    (calculate_exclusion_impact spend conversions).additional_revenue_monthly = some 0 ∧
    (calculate_exclusion_impact 20 0).monthly_savings = 80 ∧
    (calculate_exclusion_impact 20 0).confidence_pct = 90 :=
  ⟨rfl, rfl, rfl, rfl, by norm_num [calculate_exclusion_impact], rfl⟩

/-- C7: a scaling-impact call with zero current conversions returns the
zero-impact fallback — savings, conversions and revenue all zero,
confidence `'low'`, `confidence_pct = 30` — independently of spend,
scale factor and customer value. -/
theorem scaling_impact_zero_conversions (current_spend scale_factor : ℚ)
    (customer_value : Option ℚ) :
    (calculate_scaling_impact current_spend 0 scale_factor customer_value).monthly_savings = 0 ∧
    (calculate_scaling_impact current_spend 0 scale_factor customer_value).additional_conversions_monthly = 0 ∧
    (calculate_scaling_impact current_spend 0 scale_factor customer_value).additional_revenue_monthly = some 0 ∧
    (calculate_scaling_impact current_spend 0 scale_factor customer_value).confidence = "low" ∧
    (calculate_scaling_impact current_spend 0 scale_factor customer_value).confidence_pct = 30 := by
  simp [calculate_scaling_impact]

/-- C8: creative-refresh impact is tiered strictly by frequency:
`frequency > 5` gives `ctr_improvement_pct = 40` and `confidence_pct = 75`,
else `frequency > 3` gives 25 / 70, else 15 / 60 — so the pairs are always
one of (40, 75), (25, 70), (15, 60). -/
theorem creative_refresh_tiers (spend frequency current_ctr current_conversions : ℚ)
    (customer_value : Option ℚ) :
    ((calculate_creative_refresh_impact spend frequency current_ctr current_conversions customer_value).confidence_pct
        = if frequency > 5 then 75 else if frequency > 3 then 70 else 60) ∧
    ((calculate_creative_refresh_impact spend frequency current_ctr current_conversions customer_value).ctr_improvement_pct
        = some (if frequency > 5 then 40 else if frequency > 3 then 25 else 15)) ∧
    (((calculate_creative_refresh_impact spend frequency current_ctr current_conversions customer_value).confidence_pct = 75 ∧
      (calculate_creative_refresh_impact spend frequency current_ctr current_conversions customer_value).ctr_improvement_pct = some 40) ∨
     ((calculate_creative_refresh_impact spend frequency current_ctr current_conversions customer_value).confidence_pct = 70 ∧
      (calculate_creative_refresh_impact spend frequency current_ctr current_conversions customer_value).ctr_improvement_pct = some 25) ∨
     ((calculate_creative_refresh_impact spend frequency current_ctr current_conversions customer_value).confidence_pct = 60 ∧
      (calculate_creative_refresh_impact spend frequency current_ctr current_conversions customer_value).ctr_improvement_pct = some 15)) := by
  unfold calculate_creative_refresh_impact
  split_ifs with h1 h2 <;> simp [pyInt]

/-- C4: for `current_bid > 0`, a bid increase scales conversion volume at
0.8 × the percentage bid increase and spend 1:1 with it (with the worked
example `current_bid = 1`, `suggested_bid = 1.25`, spend = 50,
conversions = 4 giving `additional_conversions_monthly = 3.2` and
`additional_spend_monthly = 50`), while a bid decrease saves
`|bid-change fraction| × weekly spend × 4` per month and loses a flat 20%
of weekly conversions regardless of the size of the cut.  Spend and
conversion counts are nonnegative per the data-model invariant. -/
theorem bid_adjustment_asymmetry :
    ((calculate_bid_adjustment_impact 1 (5/4) 50 4 none).additional_conversions_monthly = 16/5 ∧
     (calculate_bid_adjustment_impact 1 (5/4) 50 4 none).additional_spend_monthly = some 50) ∧
    (∀ cb sb sp conv : ℚ, ∀ cv : Option ℚ, 0 < cb → cb < sb → 0 ≤ conv →
      (calculate_bid_adjustment_impact cb sb sp conv cv).additional_conversions_monthly
          = conv * ((sb - cb) / cb * (4/5)) * 4 ∧
      (calculate_bid_adjustment_impact cb sb sp conv cv).additional_spend_monthly
          = some (sp * ((sb - cb) / cb) * 4)) ∧
    (∀ cb sb sp conv : ℚ, ∀ cv : Option ℚ, 0 < cb → sb < cb → 0 ≤ sp → 0 ≤ conv →
      (calculate_bid_adjustment_impact cb sb sp conv cv).monthly_savings
          = |(sb - cb) / cb| * sp * 4 ∧
      (calculate_bid_adjustment_impact cb sb sp conv cv).conversions_lost_monthly
          = some (conv * (1/5) * 4)) := by
  refine ⟨?_, ?_, ?_⟩
  · constructor <;> norm_num [calculate_bid_adjustment_impact]
  · intro cb sb sp conv cv hcb hsb hconv
    have hne : cb ≠ 0 := ne_of_gt hcb
    have hpct : (sb - cb) / cb > 0 := div_pos (by linarith) hcb
    rcases eq_or_lt_of_le hconv with h0 | h0
    · simp [calculate_bid_adjustment_impact, hne, hpct, ← h0] <;> (first | ring1 | (norm_num [mul_comm]; done))
    · simp [calculate_bid_adjustment_impact, hne, hpct, h0] <;> (first | ring1 | (norm_num [mul_comm]; done))
  · intro cb sb sp conv cv hcb hsb hsp hconv
    have hne : cb ≠ 0 := ne_of_gt hcb
    have hpct : ¬ ((sb - cb) / cb > 0) :=
      not_lt.mpr (div_nonpos_iff.mpr (Or.inr ⟨by linarith, hcb.le⟩))
    rcases eq_or_lt_of_le hconv with h0 | h0
    · simp [calculate_bid_adjustment_impact, hne, hpct, ← h0, abs_mul,
        abs_of_nonneg hsp] <;> (first | ring1 | (norm_num [mul_comm]; done))
    · simp [calculate_bid_adjustment_impact, hne, hpct, h0, abs_mul,
        abs_of_nonneg hsp] <;> (first | ring1 | (norm_num [mul_comm]; done))

/-- Witness for C4 at concrete inputs: the worked example, an increase
(bid 2 → 3, spend 10, conversions 5) and a decrease (bid 2 → 1, spend 10,
conversions 5). -/
theorem bid_adjustment_asymmetry_witness :
    ((calculate_bid_adjustment_impact 1 (5/4) 50 4 none).additional_conversions_monthly = 16/5 ∧
     (calculate_bid_adjustment_impact 1 (5/4) 50 4 none).additional_spend_monthly = some 50) ∧
    ((calculate_bid_adjustment_impact 2 3 10 5 none).additional_conversions_monthly
        = 5 * ((3 - 2) / 2 * (4/5)) * 4 ∧
     (calculate_bid_adjustment_impact 2 3 10 5 none).additional_spend_monthly
        = some (10 * ((3 - 2) / 2) * 4)) ∧
    ((calculate_bid_adjustment_impact 2 1 10 5 none).monthly_savings
        = |((1 : ℚ) - 2) / 2| * 10 * 4 ∧
     (calculate_bid_adjustment_impact 2 1 10 5 none).conversions_lost_monthly
        = some (5 * (1/5) * 4)) :=
  ⟨bid_adjustment_asymmetry.1,
   bid_adjustment_asymmetry.2.1 2 3 10 5 none (by norm_num) (by norm_num) (by norm_num),
   bid_adjustment_asymmetry.2.2 2 1 10 5 none (by norm_num) (by norm_num) (by norm_num) (by norm_num)⟩

/-- C10: for `current_bid > 0`, `suggested_bid ≤ current_bid` and positive
conversions, the decrease branch returns
`additional_conversions_monthly = −0.20 × keyword_conversions` (the weekly
loss, not multiplied by 4) while `conversions_lost_monthly
= 0.20 × keyword_conversions × 4` — the two fields differ by the monthly
factor of 4. -/
theorem bid_decrease_inconsistent_monthly_factor (cb sb sp conv : ℚ) (cv : Option ℚ)
    (hcb : 0 < cb) (hsb : sb ≤ cb) (hconv : 0 < conv) :
    (calculate_bid_adjustment_impact cb sb sp conv cv).additional_conversions_monthly
        = -(conv * (1/5)) ∧
    (calculate_bid_adjustment_impact cb sb sp conv cv).conversions_lost_monthly
        = some (conv * (1/5) * 4) ∧
    (calculate_bid_adjustment_impact cb sb sp conv cv).conversions_lost_monthly
        = some (-(calculate_bid_adjustment_impact cb sb sp conv cv).additional_conversions_monthly * 4) := by
  have hne : cb ≠ 0 := ne_of_gt hcb
  have hpct : ¬ ((sb - cb) / cb > 0) :=
    not_lt.mpr (div_nonpos_iff.mpr (Or.inr ⟨by linarith, hcb.le⟩))
  refine ⟨?_, ?_, ?_⟩ <;> simp [calculate_bid_adjustment_impact, hne, hpct, hconv] <;>
    (first | ring1 | (norm_num [mul_comm]; done))

/-- Witness for C10 at bid 2 → 1, spend 10, conversions 5. -/
theorem bid_decrease_inconsistent_monthly_factor_witness :
    (calculate_bid_adjustment_impact 2 1 10 5 none).additional_conversions_monthly
        = -((5 : ℚ) * (1/5)) ∧
    (calculate_bid_adjustment_impact 2 1 10 5 none).conversions_lost_monthly
        = some ((5 : ℚ) * (1/5) * 4) ∧
    (calculate_bid_adjustment_impact 2 1 10 5 none).conversions_lost_monthly
        = some (-(calculate_bid_adjustment_impact 2 1 10 5 none).additional_conversions_monthly * 4) :=
  bid_decrease_inconsistent_monthly_factor 2 1 10 5 none (by norm_num) (by norm_num) (by norm_num)

/-- C5: every formula that uses a per-conversion revenue value defaults a
missing `customer_value` to 3 × the observed CPA — `spend / conversions`,
or the `avg_cpa` parameter for the schedule model — so calling with
`customer_value = None` returns exactly the same result as calling with
`customer_value = 3 × CPA` supplied (with positive observed conversions
where the CPA is observed). -/
theorem customer_value_defaults_to_three_cpa :
    (∀ sp conv sf : ℚ, 0 < conv →
      calculate_scaling_impact sp conv sf none
        = calculate_scaling_impact sp conv sf (some (sp / conv * 3))) ∧
    (∀ sp f ctr conv : ℚ, 0 < conv →
      calculate_creative_refresh_impact sp f ctr conv none
        = calculate_creative_refresh_impact sp f ctr conv (some (sp / conv * 3))) ∧
    (∀ w cr pm cpa : ℚ,
      calculate_schedule_impact w cr pm cpa none
        = calculate_schedule_impact w cr pm cpa (some (cpa * 3))) ∧
    (∀ cb sb sp conv : ℚ, 0 < conv →
      calculate_bid_adjustment_impact cb sb sp conv none
        = calculate_bid_adjustment_impact cb sb sp conv (some (sp / conv * 3))) ∧
    (∀ sp conv mult : ℚ, 0 < conv →
      calculate_geo_adjustment_impact sp conv mult none
        = calculate_geo_adjustment_impact sp conv mult (some (sp / conv * 3))) := by
  have hscaling : ∀ sp conv sf : ℚ, 0 < conv →
      calculate_scaling_impact sp conv sf none
        = calculate_scaling_impact sp conv sf (some (sp / conv * 3)) := by
    intro sp conv sf h
    simp [calculate_scaling_impact, h.ne']
  refine ⟨hscaling, ?_, ?_, ?_, ?_⟩
  · intro sp f ctr conv h
    simp [calculate_creative_refresh_impact, h]
  · intro w cr pm cpa
    rfl
  · intro cb sb sp conv h
    by_cases hcb : cb = 0
    · simp [calculate_bid_adjustment_impact, hcb]
    · simp [calculate_bid_adjustment_impact, hcb, h]
  · intro sp conv mult h
    unfold calculate_geo_adjustment_impact
    split_ifs with h1 h2
    · rfl
    · exact hscaling sp conv (120/100) h
    · simp [h]

/-- Witness for C5 at spend 30, conversions 3 (CPA 10, so customer value
defaults to 30), scale factor 1.25, frequency 4, bids 2 → 3, geo
multiplier 1, and `avg_cpa = 50` for the schedule model. -/
theorem customer_value_defaults_to_three_cpa_witness :
    calculate_scaling_impact 30 3 (5/4) none
        = calculate_scaling_impact 30 3 (5/4) (some ((30 : ℚ) / 3 * 3)) ∧
    calculate_creative_refresh_impact 30 4 (1/100) 3 none
        = calculate_creative_refresh_impact 30 4 (1/100) 3 (some ((30 : ℚ) / 3 * 3)) ∧
    calculate_schedule_impact 25 (2/100) (5/2) 50 none
        = calculate_schedule_impact 25 (2/100) (5/2) 50 (some ((50 : ℚ) * 3)) ∧
    calculate_bid_adjustment_impact 2 3 30 3 none
        = calculate_bid_adjustment_impact 2 3 30 3 (some ((30 : ℚ) / 3 * 3)) ∧
    calculate_geo_adjustment_impact 30 3 1 none
        = calculate_geo_adjustment_impact 30 3 1 (some ((30 : ℚ) / 3 * 3)) :=
  ⟨customer_value_defaults_to_three_cpa.1 30 3 (5/4) (by norm_num),
   customer_value_defaults_to_three_cpa.2.1 30 4 (1/100) 3 (by norm_num),
   customer_value_defaults_to_three_cpa.2.2.1 25 (2/100) (5/2) 50,
   customer_value_defaults_to_three_cpa.2.2.2.1 2 3 30 3 (by norm_num),
   customer_value_defaults_to_three_cpa.2.2.2.2 30 3 1 (by norm_num)⟩

/-! ### Aggregator lemmas -/

/-- The raw `monthly_savings` a recommendation contributes before
confidence scaling (`rec.get('impact_data', {}).get('monthly_savings', 0)`). -/
def msRaw (rec : Recommendation) : ℚ :=
  ((rec.impact_data.getD ImpactData.empty).monthly_savings).getD 0

/-- The net-benefit amount one recommendation adds to
`totals['total_net_benefit']`: the confidence-scaled `net_benefit_monthly`,
or the synthesized `savings + revenue − spend` when that is zero and
savings or revenue is positive. -/
def netContribution (factor : ℚ) (rec : Recommendation) : ℚ :=
  let impact_data := rec.impact_data.getD ImpactData.empty
  let monthly_savings := impact_data.monthly_savings.getD 0 * factor
  let additional_revenue := impact_data.additional_revenue_monthly.getD 0 * factor
  let additional_spend := impact_data.additional_spend_monthly.getD 0 * factor
  let net_benefit0 := impact_data.net_benefit_monthly.getD 0 * factor
  if net_benefit0 = 0 ∧ (monthly_savings > 0 ∨ additional_revenue > 0) then
    monthly_savings + additional_revenue - additional_spend
  else net_benefit0

theorem aggStep_total_monthly_savings (f : ℚ) (t : Totals) (r : Recommendation) :
    (aggStep f t r).total_monthly_savings = t.total_monthly_savings + msRaw r * f := rfl

theorem aggStep_total_net_benefit (f : ℚ) (t : Totals) (r : Recommendation) :
    (aggStep f t r).total_net_benefit = t.total_net_benefit + netContribution f r := rfl

theorem foldl_aggStep_total_monthly_savings (f : ℚ) (l : List Recommendation) (t : Totals) :
    (l.foldl (aggStep f) t).total_monthly_savings
      = t.total_monthly_savings + (l.map msRaw).sum * f := by
  induction l generalizing t with
  | nil => simp
  | cons x xs ih =>
    rw [List.foldl_cons, ih, aggStep_total_monthly_savings, List.map_cons, List.sum_cons]
    ring

theorem foldl_aggStep_total_net_benefit (f : ℚ) (l : List Recommendation) (t : Totals) :
    (l.foldl (aggStep f) t).total_net_benefit
      = t.total_net_benefit + (l.map (netContribution f)).sum := by
  induction l generalizing t with
  | nil => simp
  | cons x xs ih =>
    rw [List.foldl_cons, ih, aggStep_total_net_benefit, List.map_cons, List.sum_cons]
    ring

theorem aggregate_total_monthly_savings (recs : List Recommendation) (lvl : String) :
    (aggregate_total_benefits recs lvl).total_monthly_savings
      = (recs.map msRaw).sum * confidenceFactor lvl := by
  unfold aggregate_total_benefits
  rw [foldl_aggStep_total_monthly_savings]
  ring

theorem aggregate_total_net_benefit (recs : List Recommendation) (lvl : String) :
    (aggregate_total_benefits recs lvl).total_net_benefit
      = (recs.map (netContribution (confidenceFactor lvl))).sum := by
  unfold aggregate_total_benefits
  rw [foldl_aggStep_total_net_benefit]
  ring

/-- C2: for a non-empty recommendation list whose `impact_data` provides
all net-benefit component fields, the optimistic total monthly savings are
exactly twice the conservative ones — the total is linear in the confidence
factor and the optimistic factor 1.0 is twice the conservative 0.5. -/
theorem aggregate_savings_linear_in_confidence (recs : List Recommendation)
    (hne : recs ≠ [])
    (hcomp : ∀ r ∈ recs, r.impact_data.isSome ∧
      (r.impact_data.getD ImpactData.empty).monthly_savings.isSome ∧
      (r.impact_data.getD ImpactData.empty).additional_revenue_monthly.isSome ∧
      (r.impact_data.getD ImpactData.empty).additional_spend_monthly.isSome ∧
      (r.impact_data.getD ImpactData.empty).net_benefit_monthly.isSome) :
    (aggregate_total_benefits recs "optimistic").total_monthly_savings
      = 2 * (aggregate_total_benefits recs "conservative").total_monthly_savings := by
  rw [aggregate_total_monthly_savings, aggregate_total_monthly_savings]
  have h1 : confidenceFactor "optimistic" = 1 := rfl
  have h2 : confidenceFactor "conservative" = 50/100 := rfl
  rw [h1, h2]
  ring

/-- Witness for C2: one exclusion-style recommendation with all impact
fields provided. -/
theorem aggregate_savings_linear_in_confidence_witness :
    (aggregate_total_benefits
        [{ impact_data := some
            { monthly_savings := some 80, additional_conversions_monthly := some 0,
              additional_revenue_monthly := some 0, additional_spend_monthly := some 0,
              net_benefit_monthly := some 80 },
           rec_type := some "audience_exclusion", priority := some "high" }] "optimistic").total_monthly_savings
      = 2 * (aggregate_total_benefits
        [{ impact_data := some
            { monthly_savings := some 80, additional_conversions_monthly := some 0,
              additional_revenue_monthly := some 0, additional_spend_monthly := some 0,
              net_benefit_monthly := some 80 },
           rec_type := some "audience_exclusion", priority := some "high" }] "conservative").total_monthly_savings :=
  aggregate_savings_linear_in_confidence _ (by decide) (by decide)

/-- C3 counterexample: a recommendation whose `net_benefit_monthly` is
absent and whose three components are all non-zero but negative
(savings = −1, revenue = −1, spend = 1).  The code's guard requires
`monthly_savings > 0 or additional_revenue > 0`, so nothing is synthesized:
the aggregate `total_net_benefit` stays 0 instead of the claimed
`savings + revenue − spend` (= −3 × 0.7 = −2.1 after confidence scaling). -/
theorem net_benefit_not_synthesized_for_negative_components :
    (aggregate_total_benefits
        [{ impact_data := some
            { monthly_savings := some (-1), additional_conversions_monthly := some 0,
              additional_revenue_monthly := some (-1), additional_spend_monthly := some 1,
              net_benefit_monthly := none } }] "moderate").total_net_benefit = 0 ∧
    ((-1 : ℚ) ≠ 0 ∧ (-1 : ℚ) ≠ 0 ∧ (1 : ℚ) ≠ 0) ∧
    (0 : ℚ) ≠ -1 * (70/100) + -1 * (70/100) - 1 * (70/100) := by
  refine ⟨?_, by norm_num, by norm_num⟩
  rw [aggregate_total_net_benefit]
  have hf : confidenceFactor "moderate" = 70/100 := rfl
  rw [hf]
  norm_num [netContribution]

/-- C3 (amended): for a recommendation whose confidence-scaled
`net_benefit_monthly` is absent or zero and whose scaled `monthly_savings`
or scaled `additional_revenue_monthly` is positive, appending it to any
recommendation list adds the synthesized
`savings + revenue − spend` (confidence-scaled) to `total_net_benefit`. -/
theorem net_benefit_synthesized_when_savings_or_revenue_positive
    (recs : List Recommendation) (rec : Recommendation) (lvl : String)
    (hnet : (rec.impact_data.getD ImpactData.empty).net_benefit_monthly.getD 0
        * confidenceFactor lvl = 0)
    (hpos : (rec.impact_data.getD ImpactData.empty).monthly_savings.getD 0
          * confidenceFactor lvl > 0
      ∨ (rec.impact_data.getD ImpactData.empty).additional_revenue_monthly.getD 0
          * confidenceFactor lvl > 0) :
    (aggregate_total_benefits (recs ++ [rec]) lvl).total_net_benefit
      = (aggregate_total_benefits recs lvl).total_net_benefit
        + ((rec.impact_data.getD ImpactData.empty).monthly_savings.getD 0 * confidenceFactor lvl
          + (rec.impact_data.getD ImpactData.empty).additional_revenue_monthly.getD 0 * confidenceFactor lvl
          - (rec.impact_data.getD ImpactData.empty).additional_spend_monthly.getD 0 * confidenceFactor lvl) := by
  rw [aggregate_total_net_benefit, aggregate_total_net_benefit, List.map_append, List.sum_append]
  simp [netContribution, hnet, hpos]

/-- The concrete recommendation used in the C3 witness: savings 10,
revenue 5, spend 2, no `net_benefit_monthly`. -/
def synthExampleRec : Recommendation :=
  { impact_data := some
      { monthly_savings := some 10, additional_conversions_monthly := some 0,
        additional_revenue_monthly := some 5, additional_spend_monthly := some 2,
        net_benefit_monthly := none } }

/-- Witness for C3 (amended): `synthExampleRec` appended to the empty list
at the moderate confidence level. -/
theorem net_benefit_synthesized_witness :
    (aggregate_total_benefits ([] ++ [synthExampleRec]) "moderate").total_net_benefit
      = (aggregate_total_benefits [] "moderate").total_net_benefit
        + ((synthExampleRec.impact_data.getD ImpactData.empty).monthly_savings.getD 0
              * confidenceFactor "moderate"
          + (synthExampleRec.impact_data.getD ImpactData.empty).additional_revenue_monthly.getD 0
              * confidenceFactor "moderate"
          - (synthExampleRec.impact_data.getD ImpactData.empty).additional_spend_monthly.getD 0
              * confidenceFactor "moderate") :=
  net_benefit_synthesized_when_savings_or_revenue_positive [] synthExampleRec "moderate"
    (by norm_num [synthExampleRec])
    (Or.inl (by rw [show confidenceFactor "moderate" = 70/100 from rfl]
                norm_num [synthExampleRec]))

/-- C1 counterexample: a single placement / campaign record with no
fields at all (in particular no `'spend'` key).  Both analyzers hit the
direct `['spend']` indexing (`sorted(placements, key=lambda x: x['spend'],
...)` at line 219 and `sum(c['spend'] for c in campaigns)` at line 256 of
`analyze_facebook_insights.py`) and raise `KeyError` — modelled as `none` —
instead of defaulting the missing field to zero. -/
theorem analyzers_raise_on_missing_spend :
    analyze_placement_efficiency [({} : PlacementRec)] = none ∧
    analyze_budget_pacing [({} : CampaignRec)] 7 = none :=
  ⟨rfl, rfl⟩

/-- C1 (amended): the analyzers never raise provided every input record
carries the `'spend'` key — all other missing fields default to zero or the
empty string — and an empty input list yields the early-return empty
result, never an error. -/
theorem analyzers_total_when_spend_present (pls : List PlacementRec)
    (camps : List CampaignRec) (d : ℚ)
    (hp : ∀ p ∈ pls, p.spend.isSome) (hc : ∀ c ∈ camps, c.spend.isSome) :
    (analyze_placement_efficiency pls).isSome ∧
    (analyze_budget_pacing camps d).isSome ∧
    analyze_placement_efficiency [] = some .empty ∧
    analyze_budget_pacing [] d = some .empty := by
  refine ⟨?_, ?_, rfl, rfl⟩
  · unfold analyze_placement_efficiency
    by_cases h : pls = []
    · simp [h]
    · rw [if_neg h]
      have hall : pls.all (fun pl => pl.spend.isSome) = true :=
        List.all_eq_true.mpr (fun x hx => hp x hx)
      simp [hall]
  · unfold analyze_budget_pacing
    by_cases h : camps = []
    · simp [h]
    · rw [if_neg h]
      have hall : camps.all (fun c => c.spend.isSome) = true :=
        List.all_eq_true.mpr (fun x hx => hc x hx)
      simp [hall]

/-- Witness for C1 (amended): a one-element placement list and a
one-element campaign list, each record carrying `spend`. -/
theorem analyzers_total_when_spend_present_witness :
    (analyze_placement_efficiency [{ spend := some 5 }]).isSome ∧
    (analyze_budget_pacing [{ spend := some 3 }] 7).isSome ∧
    analyze_placement_efficiency [] = some .empty ∧
    analyze_budget_pacing [] 7 = some .empty :=
  analyzers_total_when_spend_present [{ spend := some 5 }] [{ spend := some 3 }] 7
    (by decide) (by decide)

/-! ### Stable-sort lemmas for the recommendation ranking -/

theorem mem_insertAscBy (key : α → ℕ) (x a : α) (l : List α) :
    a ∈ insertAscBy key x l ↔ a = x ∨ a ∈ l := by
  induction l with
  | nil => simp [insertAscBy]
  | cons y ys ih =>
    rw [insertAscBy]
    by_cases h : key x ≤ key y
    · simp [h]
    · simp [h, ih]
      tauto

theorem pairwise_insertAscBy (key : α → ℕ) (x : α) (l : List α)
    (h : l.Pairwise (fun a b => key a ≤ key b)) :
    (insertAscBy key x l).Pairwise (fun a b => key a ≤ key b) := by
  induction l with
  | nil => simp [insertAscBy]
  | cons y ys ih =>
    rw [insertAscBy]
    rcases List.pairwise_cons.mp h with ⟨hy, hys⟩
    by_cases hxy : key x ≤ key y
    · rw [if_pos hxy]
      refine List.Pairwise.cons ?_ h
      intro b hb
      rcases List.mem_cons.mp hb with rfl | hb'
      · exact hxy
      · exact le_trans hxy (hy b hb')
    · rw [if_neg hxy]
      refine List.Pairwise.cons ?_ (ih hys)
      intro b hb
      rcases (mem_insertAscBy key x b ys).mp hb with rfl | hb'
      · exact le_of_not_le hxy
      · exact hy b hb'

theorem pairwise_sortAscBy (key : α → ℕ) (l : List α) :
    (sortAscBy key l).Pairwise (fun a b => key a ≤ key b) := by
  induction l with
  | nil => simp [sortAscBy]
  | cons x xs ih => exact pairwise_insertAscBy key x _ ih

theorem filter_insertAscBy (key : α → ℕ) (k : ℕ) (x : α) (l : List α) :
    (insertAscBy key x l).filter (fun y => key y == k)
      = if key x = k then x :: l.filter (fun y => key y == k)
        else l.filter (fun y => key y == k) := by
  induction l with
  | nil => by_cases h : key x = k <;> simp [insertAscBy, List.filter_cons, h]
  | cons y ys ih =>
    rw [insertAscBy]
    by_cases hxy : key x ≤ key y
    · rw [if_pos hxy]
      by_cases h : key x = k <;> simp [List.filter_cons, h]
    · rw [if_neg hxy]
      by_cases h : key x = k
      · have hyk : ¬ (key y = k) := by
          have := Nat.lt_of_not_le hxy
          omega
        simp [List.filter_cons, h, hyk, ih]
      · simp [List.filter_cons, h, ih]

theorem filter_sortAscBy (key : α → ℕ) (k : ℕ) (l : List α) :
    (sortAscBy key l).filter (fun y => key y == k) = l.filter (fun y => key y == k) := by
  induction l with
  | nil => rfl
  | cons x xs ih =>
    rw [sortAscBy, filter_insertAscBy, ih]
    by_cases h : key x = k <;> simp [List.filter_cons, h]

/-- C9: `generate_recommendations` returns at most 20 recommendations,
ordered so that every `'high'`-priority item precedes every `'medium'` one
and every `'medium'` precedes every `'low'` (non-decreasing priority key
0/1/2), and the sort is stable: for each priority key the subsequence of
the sorted list equals the subsequence of the generated input list, and
the output's subsequence is a prefix of it — so items of equal priority
keep their insertion order. -/
theorem generate_recommendations_sorted_capped_stable (recs : List GenRec) :
    (generate_recommendations_finalize recs).length ≤ 20 ∧
    (generate_recommendations_finalize recs).Pairwise
      (fun a b => priorityKey a ≤ priorityKey b) ∧
    (∀ k : ℕ, (sortAscBy priorityKey recs).filter (fun x => priorityKey x == k)
        = recs.filter (fun x => priorityKey x == k)) ∧
    (∀ k : ℕ, List.IsPrefix
        ((generate_recommendations_finalize recs).filter (fun x => priorityKey x == k))
        (recs.filter (fun x => priorityKey x == k))) := by
  refine ⟨?_, ?_, fun k => filter_sortAscBy priorityKey k recs, ?_⟩
  · unfold generate_recommendations_finalize
    simp [List.length_take]
  · unfold generate_recommendations_finalize
    exact List.Pairwise.sublist (List.take_sublist 20 _) (pairwise_sortAscBy priorityKey recs)
  · intro k
    unfold generate_recommendations_finalize
    have h := List.IsPrefix.filter (fun x => priorityKey x == k)
      ( List.take_prefix 20 (sortAscBy priorityKey recs))
    rw [filter_sortAscBy] at h
    exact h

end AdsDashboard
